import Mathlib

/-!
Verification of the `persian-wheel-picker` component
(`src/registry/default/persian-wheel-picker.tsx`).

The component is a three-wheel (day / month / year) Jalali date picker.
This file gives a shallow embedding of its core logic:

* the Jalali calendar arithmetic the component calls through
  `dayjs` + `jalaliday` (which delegate to the `jalaali-js` algorithms:
  `jalCal`, `g2d`, `d2g`, `j2d`, `d2j`, `jalaaliMonthLength`) — embedded
  faithfully from those algorithms, with JavaScript's truncating integer
  division and remainder;
* the wheel interaction math (`snapToClosest`, `handleScroll`'s
  animation-frame callback, `scrollToIndex`, item click) over exact
  rationals standing for continuous pixel offsets;
* the gesture state machine kept in the `Wheel` component's refs
  (`isUserScrollingRef`, the pending snap timeout) and its external-sync
  effect;
* the composite orchestration: initial-date resolution, the day-clamp
  effect, the debounced `onChange` emission.

Strings are modelled as `List Char`; observable DOM mutations as
explicit command lists.  `Option` models JavaScript `undefined` /
thrown `TypeError` on out-of-bounds element access.  The environment is
single-threaded and event-driven: React state-update effects run before
any pending timer fires, which is how the event loop in the source
behaves (effects run at commit, timeouts of 120/150 time units later).
-/

namespace PersianWheel

/-- JavaScript's `~~(a / b)` (division truncating toward zero), as used by
`jalaali-js`'s `div` helper. `Int.tdiv` in Lean is exactly T-division. -/
def jsDiv (a b : Int) : Int := Int.tdiv a b

/-- JavaScript remainder `a - ~~(a / b) * b`, `jalaali-js`'s `mod` helper. -/
def jsMod (a b : Int) : Int := a - b * jsDiv a b

/-- `Math.round` on an exact rational: round half toward positive infinity. -/
def jsRound (q : ℚ) : Int := ⌊q + 1 / 2⌋

/-- The source's utility `clamp = (v, min, max) => Math.max(min, Math.min(v, max))`
(line 52), at integer type. -/
def clamp (v lo hi : Int) : Int := max lo (min v hi)

/-! ### Jalali calendar arithmetic (`jalaali-js`, used via `dayjs`+`jalaliday`)

The component computes `daysInMonth` and all Jalali/Gregorian conversions
through the `jalaliday` dayjs plugin, which delegates to `jalaali-js`.
The definitions below transcribe the `jalaali-js` algorithms.  The source
library throws for years outside `[-61, 3178)`; inside that range the
total functions below agree with it, and all claims are stated inside it. -/

/-- Break years of the 2820-year-cycle approximation used by `jalaali-js`. -/
def breaks : List Int :=
  [-61, 9, 38, 199, 426, 686, 756, 818, 1111, 1181, 1210, 1635,
   2060, 2097, 2192, 2262, 2324, 2394, 2456, 3178]

/-- The accumulation loop of `jalaali-js`'s `jalCal`: walks the break list,
returning the final `(leapJ, jp, jump)`.  The loop breaks as soon as
`jy < b`, with `jump` already updated to `b - jp`. -/
def jalCalLoop (jy : Int) : List Int → Int → Int → Int → Int × Int × Int
  | [], leapJ, jp, jump => (leapJ, jp, jump)
  | b :: rest, leapJ, jp, _ =>
    let jump := b - jp
    if jy < b then (leapJ, jp, jump)
    else jalCalLoop jy rest (leapJ + jsDiv jump 33 * 8 + jsDiv (jsMod jump 33) 4) b jump

/-- `jalaali-js`'s `jalCal jy` (with the leap computation): returns
`(leap, gy, march)` where `leap` is the number of years since the last
leap year (0 means `jy` is leap), `gy = jy + 621`, and `march` is the
Gregorian March day of Farvardin 1. -/
def jalCalData (jy : Int) : Int × Int × Int :=
  let gy := jy + 621
  let acc := jalCalLoop jy breaks.tail (-14) (-61) 0
  let leapJ0 := acc.1
  let jp := acc.2.1
  let jump := acc.2.2
  let n := jy - jp
  let leapJ1 := leapJ0 + jsDiv n 33 * 8 + jsDiv (jsMod n 33 + 3) 4
  let leapJ := if jsMod jump 33 = 4 ∧ jump - n = 4 then leapJ1 + 1 else leapJ1
  let leapG := jsDiv gy 4 - jsDiv ((jsDiv gy 100 + 1) * 3) 4 - 150
  let march := 20 + leapJ - leapG
  let n2 := if jump - n < 6 then n - jump + jsDiv (jump + 4) 33 * 33 else n
  let leap0 := jsMod (jsMod (n2 + 1) 33 - 1) 4
  let leap := if leap0 = -1 then 4 else leap0
  (leap, gy, march)

/-- `jalaali-js`'s `isLeapJalaaliYear`: `jalCal(jy).leap === 0`. -/
def isLeapJalaaliYear (jy : Int) : Bool := (jalCalData jy).1 = 0

/-- `jalaali-js`'s `jalaaliMonthLength`: number of days of Jalali month
`jm` of year `jy`.  This is what the component's `daysInMonth` value
(source lines 390–395) evaluates to for the current wheel state. -/
def jalaaliMonthLength (jy jm : Int) : Int :=
  if jm ≤ 6 then 31 else if jm ≤ 11 then 30
  else if isLeapJalaaliYear jy then 30 else 29

/-- `jalaali-js`'s `g2d`: Gregorian date to Julian day number. -/
def g2d (gy gm gd : Int) : Int :=
  let d := jsDiv ((gy + jsDiv (gm - 8) 6 + 100100) * 1461) 4
    + jsDiv (153 * jsMod (gm + 9) 12 + 2) 5 + gd - 34840408
  d - jsDiv (jsDiv (gy + 100100 + jsDiv (gm - 8) 6) 100 * 3) 4 + 752

/-- A Gregorian calendar date. -/
structure GDate where
  gy : Int
  gm : Int
  gd : Int
deriving DecidableEq, Repr

/-- `jalaali-js`'s `d2g`: Julian day number to Gregorian date. -/
def d2g (jdn : Int) : GDate :=
  let j0 := 4 * jdn + 139361631
  let j := j0 + jsDiv (jsDiv (4 * jdn + 183187720) 146097 * 3) 4 * 4 - 3908
  let i := jsDiv (jsMod j 1461) 4 * 5 + 308
  let gd := jsDiv (jsMod i 153) 5 + 1
  let gm := jsMod (jsDiv i 153) 12 + 1
  let gy := jsDiv j 1461 - 100100 + jsDiv (8 - gm) 6
  ⟨gy, gm, gd⟩

/-- `jalaali-js`'s `j2d`: Jalali date to Julian day number (linear in the
month/day arguments, which is how out-of-range components overflow). -/
def j2d (jy jm jd : Int) : Int :=
  let r := jalCalData jy
  g2d r.2.1 3 r.2.2 + (jm - 1) * 31 - jsDiv jm 7 * (jm - 7) + jd - 1

/-- `ITEM_HEIGHT = 44` (px per row, source line 89). -/
def ITEM_HEIGHT : ℚ := 44

/-- The nearest-index computation shared verbatim by `snapToClosest`
(lines 145–154) and `handleScroll`'s animation-frame callback
(lines 198–207): mode-dependent rounding followed by the source's
`clamp(index, 0, items.length - 1)`. -/
def nearestIndex (centered : Bool) (scrollTop maxScrollTop : ℚ) (count : Int) : Int :=
  let index : Int :=
    if centered then jsRound (scrollTop / ITEM_HEIGHT)
    else if maxScrollTop ≤ 0 then 0
    else jsRound (scrollTop / maxScrollTop * (count - 1))
  clamp index 0 (count - 1)

/-- The index mapping exactly as the specification words it: in centered
mode `round(offset / itemHeight)` clamped to `[0, itemCount-1]`; in
linear mode `round((offset / maxScrollOffset) * (itemCount - 1))`
clamped to `[0, itemCount-1]`, with `maxScrollOffset <= 0` forced to
index 0.  Stated separately from `nearestIndex` so the code can be
proved to refine the specification. -/
def specNearestIndex (centered : Bool) (offset maxScrollOffset : ℚ) (itemCount : Int) : Int :=
  if centered then clamp (jsRound (offset / ITEM_HEIGHT)) 0 (itemCount - 1)
  else if maxScrollOffset ≤ 0 then 0
  else clamp (jsRound (offset / maxScrollOffset * (itemCount - 1))) 0 (itemCount - 1)

/-- Target offset of `scrollToIndex` (lines 125–129): `newIndex * ITEM_HEIGHT`
when centered, else the proportional offset when more than one item,
else `0`. -/
def scrollTargetFor (centered : Bool) (ix : Int) (count : Int) (maxScrollTop : ℚ) : ℚ :=
  if centered then (ix : ℚ) * ITEM_HEIGHT
  else if 1 < count then (ix : ℚ) / ((count : ℚ) - 1) * maxScrollTop
  else 0

/-- `snapToClosest` (lines 140–162): compute the nearest index, read
`items[index].value`, publish it when it differs from the current
`value`, and issue one corrective animated scroll via `scrollToIndex`.
Result: `none` when `items[index]` is `undefined` (the source would
throw on `.value`); otherwise `some (published?, scrollTarget)`. -/
def snapToClosest (items : List Int) (value : Int) (centered : Bool)
    (scrollTop maxScrollTop : ℚ) : Option (Option Int × ℚ) :=
  let index := nearestIndex centered scrollTop maxScrollTop items.length
  match items[index.toNat]? with
  | none => none
  | some newValue =>
    some (if newValue ≠ value then some newValue else none,
          scrollTargetFor centered index items.length maxScrollTop)

/-- The animation-frame callback scheduled by `handleScroll`
(lines 194–211): recompute the nearest index and publish the value at it
when it differs from the current `value`.  `none` models the `undefined`
element access; `some none` means no publication, `some (some v)` means
`onChange v` fired immediately during the gesture. -/
def handleScrollFrame (items : List Int) (value : Int) (centered : Bool)
    (scrollTop maxScrollTop : ℚ) : Option (Option Int) :=
  let index := nearestIndex centered scrollTop maxScrollTop items.length
  match items[index.toNat]? with
  | none => none
  | some newValue => some (if newValue ≠ value then some newValue else none)

/-- `items.findIndex((i) => i.value === v)` (line 112): first index of
`v`, or `-1` when absent. -/
def findIndex (items : List Int) (v : Int) : Int :=
  match items with
  | [] => -1
  | a :: rest =>
    if a = v then 0
    else
      let r := findIndex rest v
      if r = -1 then -1 else r + 1

/-- The item `onClick` handler (lines 286–301): always look up the
item's index; publish its value only when it differs from the current
`value`; compute the item's exact target offset and issue an animated
scroll exactly when `|scrollTop - target| > 1`.  Result:
`(published?, scroll commands)`. -/
def clickItem (items : List Int) (value : Int) (centered : Bool)
    (scrollTop maxScrollTop : ℚ) (itemValue : Int) : Option Int × List ℚ :=
  let ix := findIndex items itemValue
  let published := if itemValue ≠ value then some itemValue else none
  let target := scrollTargetFor centered ix items.length maxScrollTop
  (published, if 1 < |scrollTop - target| then [target] else [])

/-! ### The `Wheel` gesture state machine

The refs of the component (`isUserScrollingRef`, the pending
120-time-unit snap timeout, the current scroll offset) form a per-wheel
machine.  `isUserScrolling = true` exactly while the machine is in the
specification's `UserScrolling` or `SettlingSnap` phases: it is set on
every scroll signal (line 188) and reset only inside the snap timeout
callback, after the snap has been issued (line 173).  The snap
resolution is atomic here, matching the specification's granularity. -/

structure WheelState where
  /-- Currently selected value (the `value` prop). -/
  value : Int
  /-- `isUserScrollingRef.current`. -/
  isUserScrolling : Bool
  /-- Whether the 120-unit snap timeout is pending. -/
  snapPending : Bool
  /-- Current continuous scroll offset (`el.scrollTop`). -/
  offset : ℚ
deriving DecidableEq, Repr

/-- Events driving one wheel: a scroll signal at a new offset, the snap
timeout firing, or the parent changing the `value` prop externally. -/
inductive WheelEvent where
  | scroll (o : ℚ)
  | snapTimer
  | externalSet (v : Int)
deriving DecidableEq, Repr

/-- One step of the wheel machine.  Returns the new state, the list of
programmatic scroll commands issued, and the list of published values.
`scroll` marks the user-scrolling flag and (re)starts the snap timeout
(lines 185–192; the intermediate animation-frame publication is modelled
by `handleScrollFrame`).  `snapTimer` runs `snapToClosest` and then
clears the flag (lines 171–174).  `externalSet` is the external-sync
effect (lines 221–235): it scrolls only when the wheel's position
differs from the target by more than 2 and the user is not scrolling. -/
def wheelStep (items : List Int) (centered : Bool) (maxScrollTop : ℚ)
    (st : WheelState) : WheelEvent → WheelState × List ℚ × List Int
  | .scroll o =>
    ({ st with offset := o, isUserScrolling := true, snapPending := true }, [], [])
  | .snapTimer =>
    if st.snapPending then
      let index := nearestIndex centered st.offset maxScrollTop items.length
      let target := scrollTargetFor centered index items.length maxScrollTop
      let published :=
        match items[index.toNat]? with
        | some newValue => if newValue ≠ st.value then [newValue] else []
        | none => []
      ({ st with isUserScrolling := false, snapPending := false, offset := target },
       [target], published)
    else (st, [], [])
  | .externalSet v =>
    let st' := { st with value := v }
    let ix := findIndex items v
    if ix < 0 then (st', [], [])
    else
      let target := scrollTargetFor centered ix items.length maxScrollTop
      if 2 < |st.offset - target| ∧ st.isUserScrolling = false
      then (st', [target], [])
      else (st', [], [])

/-! ### Composite orchestration: `PersianWheelPicker` -/

/-- The composite's single source of truth: the three `useState` cells
`year`, `month` (1–12), `day` (source lines 383–387). -/
structure DateState where
  year : Int
  month : Int
  day : Int
deriving DecidableEq, Repr

/-- The derived `daysInMonth` value (lines 390–395):
`dayjs().calendar("jalali").year(year).month(month-1).date(1).daysInMonth()`,
which `jalaliday` evaluates as the Jalali month length. -/
def daysInMonth (year month : Int) : Int := jalaaliMonthLength year month

/-- A published change from one of the three wheels: the composite's
`setYear` / `setMonth` / `setDay` handlers (lines 443, 451, 459). -/
inductive Mutation where
  | setYear (y : Int)
  | setMonth (m : Int)
  | setDay (d : Int)
deriving DecidableEq, Repr

/-- Apply a wheel's published change to the date state. -/
def applyMutation (s : DateState) : Mutation → DateState
  | .setYear y => { s with year := y }
  | .setMonth m => { s with month := m }
  | .setDay d => { s with day := d }

/-- The day-clamp effect (lines 398–400):
`if (day > daysInMonth) setDay(daysInMonth)`.  Returns the corrected
state together with the value re-published to the day wheel (the
`setDay` argument), when any. -/
def clampDayEffect (s : DateState) : DateState × Option Int :=
  let dim := daysInMonth s.year s.month
  if s.day > dim then ({ s with day := dim }, some dim) else (s, none)

/-- One observable composite step: a wheel publishes a mutation, then the
day-clamp effect runs (React effects run at commit, before any pending
debounce timer fires, so this is the first externally observable
state). -/
def compositeStep (s : DateState) (mu : Mutation) : DateState × Option Int :=
  clampDayEffect (applyMutation s mu)

/-- The year wheel's item values (lines 403–406):
`for (let y = maxYear; y >= minYear; y--) yearItems.push({value: y, ...})`,
i.e. `maxYear, maxYear - 1, …, minYear` — and the empty list when
`minYear > maxYear` (zero loop iterations). -/
def yearItemValues (minYear maxYear : Int) : List Int :=
  (List.range (maxYear - minYear + 1).toNat).map (fun i => maxYear - (i : Int))

/-! ### Initial-date resolution (lines 368–387)

Strings are modelled as `List Char`.  `String.prototype.split("-")` is
`splitDash`; `Number(piece)` is `jsNumber`, implementing the
string-to-number conversion: whitespace trimming, the empty string to
`0`, signed decimal literals with optional fraction and exponent,
`Infinity`, and `0x`/`0o`/`0b` radix literals; everything else is `NaN`.

The destructuring `const [y, m, d] = ...` leaves `d` (and possibly `m`)
`undefined` when the input has fewer than three pieces.  dayjs's
`date(input)` is a getter/setter hybrid: with an `undefined` argument it
is a getter returning a *number*, so `parsed` is a number and
`parsed.isValid()` throws a `TypeError` out of the render.  An
out-of-domain finite year additionally makes `jalaali-js`'s `jalCal`
throw an `Error`.  Both escaping exceptions are modelled by a `none`
result of the resolution.

For present arguments, the Jalali-mode setter chain
`.year(y).month(m - 1).date(d)` behaves as follows (dayjs core `$set`
plus `jalaliday` over `jalaali-js`): a `NaN` argument produces an
Invalid Date, which every later setter keeps invalid without throwing
(all intermediate values are `NaN`, which passes `jalCal`'s range guards
since `NaN` comparisons are false); the `year` and `month` setters on a
valid date move to day 1, apply the new year/month, then restore
`min(previous day, daysInMonth of the result)`; the `date` setter sets
the Jalali day-of-month; out-of-range numeric month/day components
overflow arithmetically through the day-number conversion
(`d2j ∘ j2d`).  Non-integral finite arguments are modelled by
truncation toward zero, the truncation the `Date` materialization
applies; no theorem below depends on a non-integral component. -/

/-- Run the debounce over a time-ordered list of scheduling calls.
`pending` is the pending `(fire time, captured state)`.  A pending timer
fires iff its fire time is reached before the next call clears it; a
still-pending timer at the end of the trace fires afterwards. -/
def debounceRun (delay : ℚ) : List (ℚ × DateState) → Option (ℚ × DateState) →
    List (ℚ × DateState)
  | [], none => []
  | [], some p => [p]
  | (t, a) :: rest, none => debounceRun delay rest (some (t + delay, a))
  | (t, a) :: rest, some p =>
    if p.1 ≤ t then p :: debounceRun delay rest (some (t + delay, a))
    else debounceRun delay rest (some (t + delay, a))

/-- Left-pad a character list with `'0'` to length `width`
(`String.prototype.padStart(width, "0")`). -/
def padZeros (width : Nat) (cs : List Char) : List Char :=
  List.replicate (width - cs.length) '0' ++ cs

/-- JavaScript `String(n)` for an integer. -/
def intToChars (n : Int) : List Char :=
  if n < 0 then '-' :: Nat.toDigits 10 (-n).toNat else Nat.toDigits 10 n.toNat

/-- The payload handed to `onChange` (lines 420–426): the Jalali string
`` `${year}-${pad2 month}-${pad2 day}` `` and the derived Gregorian
string formatted `YYYY-MM-DD`. -/
structure PickerChangeValue where
  jalali : List Char
  gregorian : List Char
deriving DecidableEq, Repr

/-- Build the `onChange` payload from a date state: format the Jalali
string, convert it to Gregorian through the calendar arithmetic
(`dayjs(jalaliStr, {jalali: true}).calendar("gregory")`), and format
that as `YYYY-MM-DD`. -/
def mkChangeValue (s : DateState) : PickerChangeValue :=
  let jalali := intToChars s.year ++ '-' :: padZeros 2 (intToChars s.month)
    ++ '-' :: padZeros 2 (intToChars s.day)
  let g := d2g (j2d s.year s.month s.day)
  let gregorian := padZeros 4 (intToChars g.gy) ++ '-' :: padZeros 2 (intToChars g.gm)
    ++ '-' :: padZeros 2 (intToChars g.gd)
  ⟨jalali, gregorian⟩

/-- The debounced notifications delivered to the parent's `onChange` for
a time-stamped trace of committed states, with their payloads. -/
def debouncedNotifications (events : List (ℚ × DateState)) : List (ℚ × PickerChangeValue) :=
  (debounceRun 150 events none).map (fun p => (p.1, mkChangeValue p.2))

/-- The source's clamp lands in `[lo, hi]` whenever `lo ≤ hi`. -/
lemma clamp_mem (v lo hi : Int) (h : lo ≤ hi) :
    lo ≤ clamp v lo hi ∧ clamp v lo hi ≤ hi :=
  ⟨le_max_left _ _, max_le h (min_le_right _ _)⟩

/-- The nearest-index computation stays within `[0, count - 1]` for a
nonempty wheel. -/
lemma nearestIndex_bounds (centered : Bool) (scrollTop maxScrollTop : ℚ)
    (count : Int) (h : 1 ≤ count) :
    0 ≤ nearestIndex centered scrollTop maxScrollTop count
    ∧ nearestIndex centered scrollTop maxScrollTop count ≤ count - 1 := by
  unfold nearestIndex
  exact clamp_mem _ _ _ (by omega)

/-- On a nonempty item list the element at the nearest index exists. -/
lemma nearestIndex_get (items : List Int) (centered : Bool)
    (scrollTop maxScrollTop : ℚ) (h : items ≠ []) :
    ∃ nv, items[(nearestIndex centered scrollTop maxScrollTop items.length).toNat]?
      = some nv := by
  have hlen : 1 ≤ (items.length : Int) := by
    have := List.length_pos.mpr h
    omega
  have hb := nearestIndex_bounds centered scrollTop maxScrollTop items.length hlen
  have hlt : (nearestIndex centered scrollTop maxScrollTop items.length).toNat
      < items.length := by omega
  exact ⟨_, List.getElem?_eq_getElem hlt⟩

/-- The code's index computation coincides with the specification's
wording of it whenever the wheel has at least one item. -/
lemma nearestIndex_eq_spec (centered : Bool) (scrollTop maxScrollTop : ℚ)
    (count : Int) (h : 1 ≤ count) :
    nearestIndex centered scrollTop maxScrollTop count
      = specNearestIndex centered scrollTop maxScrollTop count := by
  cases centered
  · simp only [nearestIndex, specNearestIndex, Bool.false_eq_true, if_false]
    split_ifs with h1
    · show clamp 0 0 (count - 1) = 0
      unfold clamp
      rw [min_eq_left (by omega), max_self]
    · rfl
  · rfl

/-- JavaScript `findIndex` returns the index of an element of a
duplicate-free list. -/
lemma findIndex_eq_of_nodup : ∀ (l : List Int) (k : Nat) (v : Int),
    l.Nodup → l[k]? = some v → findIndex l v = (k : Int)
  | [], k, v, _, hk => by simp at hk
  | a :: t, 0, v, _, hk => by
    simp only [List.getElem?_cons_zero, Option.some.injEq] at hk
    simp [findIndex, hk]
  | a :: t, k + 1, v, hnd, hk => by
    have hk' : t[k]? = some v := by simpa using hk
    have hvt : v ∈ t := List.getElem?_mem hk'
    have hav : ¬ a = v := fun e => (List.nodup_cons.mp hnd).1 (e ▸ hvt)
    have ih := findIndex_eq_of_nodup t k v (List.nodup_cons.mp hnd).2 hk'
    show (if a = v then 0
      else if findIndex t v = -1 then -1 else findIndex t v + 1) = ((k + 1 : Nat) : Int)
    rw [if_neg hav, ih, if_neg (by omega)]
    push_cast
    ring

/-! ### Claim C7 — `daysInMonth` is 29–31, leap-sensitive only in Esfand -/

/-- Claim C7: for every year in the calendar library's supported range
(which contains the default `[minYear, maxYear]` range `[1300, current]`)
and every month 1–12, `daysInMonth` returns a value between 29 and 31;
for months 1–11 the value does not depend on the year, and for Esfand
(month 12) it is 30 in a Jalali leap year and 29 otherwise.  The
function is deterministic by construction (it is a pure function of
`(year, month)`). -/
theorem daysInMonth_range (y m : Int) (_hy : -61 ≤ y ∧ y < 3178)
    (hm : 1 ≤ m ∧ m ≤ 12) :
    (29 ≤ daysInMonth y m ∧ daysInMonth y m ≤ 31)
    ∧ (m ≤ 11 → ∀ y', daysInMonth y m = daysInMonth y' m)
    ∧ (m = 12 → daysInMonth y m = if isLeapJalaaliYear y then 30 else 29) := by
  refine ⟨?_, ?_, ?_⟩
  · unfold daysInMonth jalaaliMonthLength
    split_ifs <;> omega
  · intro h11 y'
    unfold daysInMonth jalaaliMonthLength
    split_ifs <;> omega
  · intro h12
    subst h12
    unfold daysInMonth jalaaliMonthLength
    norm_num

/-- Witness for C7 at concrete inputs: Esfand of the leap year 1403 has
30 days and Esfand of the non-leap year 1404 has 29. -/
theorem daysInMonth_range_witness :
    ((29 ≤ daysInMonth 1403 12 ∧ daysInMonth 1403 12 ≤ 31)
      ∧ ((12 : Int) ≤ 11 → ∀ y', daysInMonth 1403 12 = daysInMonth y' 12)
      ∧ ((12 : Int) = 12 → daysInMonth 1403 12 = if isLeapJalaaliYear 1403 then 30 else 29))
    ∧ daysInMonth 1403 12 = 30 ∧ daysInMonth 1404 12 = 29 :=
  ⟨daysInMonth_range 1403 12 (by norm_num) (by norm_num), by decide, by decide⟩

/-! ### Claim C1 — the day-clamp invariant of the composite -/

/-- Claim C1: after any wheel-published mutation followed by the
day-clamp effect (which runs at commit, before the debounced external
notification can fire), the composite state satisfies
`day ≤ daysInMonth year month`; and whenever the freshly mutated state
overflows, the clamp rewrites `day` to exactly `daysInMonth` and
re-publishes that value to the day wheel via `setDay`. -/
theorem dayClamp_invariant (s : DateState) (mu : Mutation) :
    (compositeStep s mu).1.day
      ≤ daysInMonth (compositeStep s mu).1.year (compositeStep s mu).1.month
    ∧ (daysInMonth (applyMutation s mu).year (applyMutation s mu).month
          < (applyMutation s mu).day →
        (compositeStep s mu).2
            = some (daysInMonth (applyMutation s mu).year (applyMutation s mu).month)
          ∧ (compositeStep s mu).1.day
            = daysInMonth (applyMutation s mu).year (applyMutation s mu).month) := by
  unfold compositeStep clampDayEffect
  set t := applyMutation s mu with ht
  by_cases h : daysInMonth t.year t.month < t.day
  · rw [if_pos h]
    exact ⟨le_refl _, fun _ => ⟨rfl, rfl⟩⟩
  · rw [if_neg h]
    refine ⟨?_, fun h' => absurd h' h⟩
    show t.day ≤ daysInMonth t.year t.month
    omega

/-- Witness for C1 at a concrete input: state 1403-12-30 (valid: 1403 is
leap) mutated by the year wheel to 1404 (non-leap, Esfand has 29 days)
is clamped to day 29 and 29 is re-published to the day wheel. -/
theorem dayClamp_invariant_witness :
    (compositeStep ⟨1403, 12, 30⟩ (Mutation.setYear 1404)).1.day
      ≤ daysInMonth (compositeStep ⟨1403, 12, 30⟩ (Mutation.setYear 1404)).1.year
          (compositeStep ⟨1403, 12, 30⟩ (Mutation.setYear 1404)).1.month
    ∧ (compositeStep ⟨1403, 12, 30⟩ (Mutation.setYear 1404)).2
      = some (daysInMonth (applyMutation ⟨1403, 12, 30⟩ (Mutation.setYear 1404)).year
          (applyMutation ⟨1403, 12, 30⟩ (Mutation.setYear 1404)).month) :=
  ⟨(dayClamp_invariant ⟨1403, 12, 30⟩ (Mutation.setYear 1404)).1,
   ((dayClamp_invariant ⟨1403, 12, 30⟩ (Mutation.setYear 1404)).2 (by decide)).1⟩

/-! ### Claim C2 — initial-date resolution (corrected)

The claim as frozen is false on the code in two ways.  First, the
resolution falls back to `today` only when `parsed.isValid()` is false:
a numerically out-of-range month or day component does not fall back —
the setters overflow it arithmetically into adjacent months/years and
the resulting (valid) date is kept.  Second, "never raises" is false:
with fewer than three `"-"`-separated pieces, `d` is `undefined`,
`.date(undefined)` is a getter returning a number, and
`parsed.isValid()` throws a `TypeError` to the caller. -/

/-- Claim C3: while the wheel's user-scrolling flag is set — which is
the case throughout the specification's `UserScrolling` and
`SettlingSnap` phases, since every scroll signal sets it and only the
completion of the snap timeout callback clears it — an externally
supplied value change produces zero programmatic scroll commands; and a
scroll signal does put the machine into that protected phase. -/
theorem externalSync_suppressed (items : List Int) (centered : Bool)
    (maxScrollTop : ℚ) (st : WheelState) (v : Int) (o : ℚ)
    (h : st.isUserScrolling = true) :
    (wheelStep items centered maxScrollTop st (WheelEvent.externalSet v)).2.1 = []
    ∧ (wheelStep items centered maxScrollTop st (WheelEvent.scroll o)).1.isUserScrolling
      = true := by
  constructor
  · simp only [wheelStep]
    split_ifs with h1 h2
    · rfl
    · exact absurd h2.2 (by simp [h])
    · rfl
  · rfl

/-- Witness for C3 at a concrete input: a wheel mid-gesture (flag set,
snap pending, offset 50) receiving the external value 1 issues no
programmatic scroll even though its offset is far from the target. -/
theorem externalSync_suppressed_witness :
    (wheelStep [1, 2, 3] true 0 ⟨2, true, true, 50⟩ (WheelEvent.externalSet 1)).2.1 = []
    ∧ (wheelStep [1, 2, 3] true 0 ⟨2, true, true, 50⟩ (WheelEvent.scroll 7)).1.isUserScrolling
      = true :=
  externalSync_suppressed [1, 2, 3] true 0 ⟨2, true, true, 50⟩ 1 7 rfl

/-! ### Claim C4 — per-frame index mapping and immediate publication -/

/-- Claim C4: for any continuous offset and nonempty item list, the
index computed by the per-frame handler equals the specification's
mapping (centered: `round(offset / itemHeight)` clamped; linear:
`round((offset / maxScrollOffset) * (itemCount - 1))` clamped, with
`maxScrollOffset <= 0` forced to index 0), and the value at that index
is published during the gesture exactly when it differs from the last
published value. -/
theorem frame_mapping (items : List Int) (value : Int) (centered : Bool)
    (scrollTop maxScrollTop : ℚ) (h : items ≠ []) :
    nearestIndex centered scrollTop maxScrollTop items.length
      = specNearestIndex centered scrollTop maxScrollTop items.length
    ∧ ∃ nv,
        items[(specNearestIndex centered scrollTop maxScrollTop items.length).toNat]?
          = some nv
        ∧ handleScrollFrame items value centered scrollTop maxScrollTop
          = some (if nv ≠ value then some nv else none) := by
  have hlen : 1 ≤ (items.length : Int) := by
    have := List.length_pos.mpr h
    omega
  have heq := nearestIndex_eq_spec centered scrollTop maxScrollTop items.length hlen
  obtain ⟨nv, hget⟩ := nearestIndex_get items centered scrollTop maxScrollTop h
  refine ⟨heq, nv, by rw [← heq]; exact hget, ?_⟩
  simp only [handleScrollFrame]
  rw [hget]

/-- Witness for C4 at a concrete input: a centered wheel of three items
at offset 66 (= 1.5 rows) maps to index 2 and immediately publishes the
value 30 there. -/
theorem frame_mapping_witness :
    (nearestIndex true 66 0 ([10, 20, 30] : List Int).length
      = specNearestIndex true 66 0 ([10, 20, 30] : List Int).length
    ∧ ∃ nv,
        ([10, 20, 30] : List Int)[(specNearestIndex true 66 0
            ([10, 20, 30] : List Int).length).toNat]? = some nv
        ∧ handleScrollFrame [10, 20, 30] 10 true 66 0
          = some (if nv ≠ 10 then some nv else none)) :=
  frame_mapping [10, 20, 30] 10 true 66 0 (by simp)

/-! ### Claim C5 — the snap lands exactly on an item boundary -/

/-- Claim C5: on any continuous offset at which a nonempty wheel
settles, the snap issues exactly one corrective animated scroll (the
model returns exactly one target by construction, mirroring the single
`scrollToIndex` call of the source), whose target offset is exactly
`index * ITEM_HEIGHT` in centered mode and exactly the proportional
offset `(index / (itemCount - 1)) * maxScrollOffset` in linear mode
(0 when only one item exists), for a valid index in
`[0, itemCount - 1]`. -/
theorem snap_exact (items : List Int) (value : Int) (centered : Bool)
    (scrollTop maxScrollTop : ℚ) (h : items ≠ []) :
    ∃ idx published, 0 ≤ idx ∧ idx ≤ (items.length : Int) - 1
    ∧ snapToClosest items value centered scrollTop maxScrollTop
      = some (published,
          if centered then (idx : ℚ) * ITEM_HEIGHT
          else if 1 < (items.length : Int) then
            (idx : ℚ) / (((items.length : Int) : ℚ) - 1) * maxScrollTop
          else 0) := by
  have hlen : 1 ≤ (items.length : Int) := by
    have := List.length_pos.mpr h
    omega
  have hb := nearestIndex_bounds centered scrollTop maxScrollTop items.length hlen
  obtain ⟨nv, hget⟩ := nearestIndex_get items centered scrollTop maxScrollTop h
  refine ⟨nearestIndex centered scrollTop maxScrollTop items.length,
    (if nv ≠ value then some nv else none), hb.1, hb.2, ?_⟩
  simp only [snapToClosest]
  rw [hget]
  rfl

/-- Witness for C5 at a concrete input: a linear-mode wheel of three
items with scroll range 100 settling at offset 70 snaps to index 1 and
scrolls to exactly the proportional offset 50. -/
theorem snap_exact_witness :
    ∃ idx published, 0 ≤ idx ∧ idx ≤ (([10, 20, 30] : List Int).length : Int) - 1
    ∧ snapToClosest [10, 20, 30] 10 false 70 100
      = some (published,
          if false then (idx : ℚ) * ITEM_HEIGHT
          else if 1 < (([10, 20, 30] : List Int).length : Int) then
            (idx : ℚ) / (((([10, 20, 30] : List Int).length : Int) : ℚ) - 1) * 100
          else 0) :=
  snap_exact [10, 20, 30] 10 false 70 100 (by simp)

/-! ### Claim C8 — click-to-select (corrected)

The claim as frozen says every click publishes the clicked item's value.
The source guards the publication with `if (item.value !== value)`
(line 288), so clicking the currently selected item publishes nothing.
The scroll half of the claim holds exactly as stated. -/

/-- Counterexample to C8 as stated: item 2 is in the wheel and currently
selected; clicking it publishes nothing (`onChange` is not invoked),
contradicting "clicking that item publishes its value". -/
theorem click_publish_counterexample :
    (2 : Int) ∈ ([1, 2, 3] : List Int)
    ∧ (clickItem [1, 2, 3] 2 false 0 100 2).1 = none := by
  refine ⟨by decide, by decide⟩

/-- Claim C8 as amended: clicking an item of a wheel (whose values are
pairwise distinct, as they are for day, month and year wheels) publishes
its value exactly when it differs from the currently selected value, and
issues an animated scroll to the item's exact offset if and only if the
wheel's current offset differs from that exact offset by more than 1
unit. -/
theorem click_behavior (items : List Int) (value itemValue : Int)
    (centered : Bool) (scrollTop maxScrollTop : ℚ) (k : Nat)
    (hk : items[k]? = some itemValue) (hnd : items.Nodup) :
    (clickItem items value centered scrollTop maxScrollTop itemValue).1
      = (if itemValue ≠ value then some itemValue else none)
    ∧ (clickItem items value centered scrollTop maxScrollTop itemValue).2
      = (if 1 < |scrollTop - scrollTargetFor centered (k : Int) items.length maxScrollTop|
         then [scrollTargetFor centered (k : Int) items.length maxScrollTop]
         else []) := by
  have hix := findIndex_eq_of_nodup items k itemValue hnd hk
  unfold clickItem
  rw [hix]
  exact ⟨rfl, rfl⟩

/-- Witness for the amended C8 at a concrete input: clicking item 3
(index 2) of a centered wheel currently at offset 0 with selection 2
publishes 3 and animates to its exact offset 88. -/
theorem click_behavior_witness :
    (clickItem [1, 2, 3] 2 true 0 100 3).1 = (if (3 : Int) ≠ 2 then some 3 else none)
    ∧ (clickItem [1, 2, 3] 2 true 0 100 3).2
      = (if 1 < |(0 : ℚ) - scrollTargetFor true ((2 : Nat) : Int)
            ([1, 2, 3] : List Int).length 100|
         then [scrollTargetFor true ((2 : Nat) : Int) ([1, 2, 3] : List Int).length 100]
         else []) :=
  click_behavior [1, 2, 3] 2 3 true 0 100 2 (by decide) (by decide)

/-! ### Claim C9 — index safety, and the empty-year-range hazard -/

/-- Claim C9: on any nonempty item list the snap handler's
`items[index].value` access is in bounds (the computed result exists);
and the non-emptiness precondition is real: when `minYear > maxYear` the
composite builds an empty year item list, on which the same access hits
an undefined element (modelled by the `none` result). -/
theorem index_access_safety :
    (∀ (items : List Int) (value : Int) (centered : Bool) (scrollTop maxScrollTop : ℚ),
      items ≠ [] →
        (snapToClosest items value centered scrollTop maxScrollTop).isSome = true)
    ∧ (∀ minYear maxYear : Int, maxYear < minYear →
        yearItemValues minYear maxYear = []
        ∧ ∀ (value : Int) (centered : Bool) (scrollTop maxScrollTop : ℚ),
            snapToClosest (yearItemValues minYear maxYear) value centered
              scrollTop maxScrollTop = none) := by
  constructor
  · intro items value centered scrollTop maxScrollTop h
    obtain ⟨nv, hget⟩ := nearestIndex_get items centered scrollTop maxScrollTop h
    simp only [snapToClosest]
    rw [hget]
    rfl
  · intro minYear maxYear hlt
    have h0 : (maxYear - minYear + 1).toNat = 0 := by omega
    have hempty : yearItemValues minYear maxYear = [] := by
      unfold yearItemValues
      rw [h0]
      rfl
    refine ⟨hempty, fun value centered scrollTop maxScrollTop => ?_⟩
    rw [hempty]
    unfold snapToClosest
    simp

/-- Witness for C9 at concrete inputs: a one-item wheel is safe, while
the `minYear = 1401 > maxYear = 1400` configuration yields an empty year
wheel on which the snap access is undefined. -/
theorem index_access_safety_witness :
    (snapToClosest [5] 0 false 10 100).isSome = true
    ∧ yearItemValues 1401 1400 = []
    ∧ snapToClosest (yearItemValues 1401 1400) 0 true 10 100 = none :=
  ⟨index_access_safety.1 [5] 0 false 10 100 (by simp),
   (index_access_safety.2 1401 1400 (by norm_num)).1,
   (index_access_safety.2 1401 1400 (by norm_num)).2 0 true 10 100⟩

/-! ### Claim C6 — debounce coalescing -/

/-- Time-ordered scheduling calls whose consecutive gaps are all inside
the debounce window. -/
def withinWindow (delay : ℚ) : List (ℚ × DateState) → Bool
  | [] => true
  | [_] => true
  | p :: q :: rest =>
    (decide (p.1 ≤ q.1) && decide (q.1 < p.1 + delay)) && withinWindow delay (q :: rest)

/-- Core of the coalescing argument: over a burst of scheduling calls
inside the window, every pending timer but the last is cancelled, so the
debounce fires exactly once, one delay after the last call, with the
state captured at the last call. -/
lemma debounceRun_coalesce : ∀ (events : List (ℚ × DateState)) (h : events ≠ [])
    (_ : withinWindow 150 events = true),
    debounceRun 150 events none
      = [((events.getLast h).1 + 150, (events.getLast h).2)]
  | [], h, _ => absurd rfl h
  | [(_, _)], _, _ => rfl
  | (t, a) :: (t', a') :: rest, _, hw => by
    have hw' : withinWindow 150 ((t', a') :: rest) = true := by
      simp only [withinWindow, Bool.and_eq_true] at hw
      exact hw.2
    have hlt : t' < t + 150 := by
      simp only [withinWindow, Bool.and_eq_true, decide_eq_true_eq] at hw
      exact hw.1.2
    have ih := debounceRun_coalesce ((t', a') :: rest) (by simp) hw'
    have step1 : debounceRun 150 ((t, a) :: (t', a') :: rest) none
        = debounceRun 150 ((t', a') :: rest) (some (t + 150, a)) := rfl
    have step2 : debounceRun 150 ((t', a') :: rest) (some (t + 150, a))
        = debounceRun 150 rest (some (t' + 150, a')) := by
      show (if (t + 150 : ℚ) ≤ t' then _ else _) = _
      rw [if_neg (by linarith)]
    have step3 : debounceRun 150 ((t', a') :: rest) none
        = debounceRun 150 rest (some (t' + 150, a')) := rfl
    rw [step1, step2, ← step3, ih]
    simp [List.getLast_cons]

/-- Claim C6: a burst of one or more committed mutations whose
consecutive gaps all lie inside the 150-time-unit debounce window
produces exactly one external notification, delivered one debounce delay
after the last mutation, and its payload is built (by `mkChangeValue`)
from the final state only: the Jalali string and the derived Gregorian
string of that state. -/
theorem debounce_coalescing (events : List (ℚ × DateState)) (h : events ≠ [])
    (hw : withinWindow 150 events = true) :
    debouncedNotifications events
      = [((events.getLast h).1 + 150, mkChangeValue (events.getLast h).2)] := by
  unfold debouncedNotifications
  rw [debounceRun_coalesce events h hw]
  rfl

/-- Witness for C6 at a concrete input: two mutations at times 0 and 100
(gap 100 < 150) yield exactly one notification at time 250 carrying the
strings of the final state 1405-07-20. -/
theorem debounce_coalescing_witness :
    debouncedNotifications [((0 : ℚ), ⟨1405, 7, 19⟩), ((100 : ℚ), ⟨1405, 7, 20⟩)]
      = [((100 : ℚ) + 150, mkChangeValue ⟨1405, 7, 20⟩)] := by
  simpa using debounce_coalescing [(0, ⟨1405, 7, 19⟩), (100, ⟨1405, 7, 20⟩)]
    (by simp) (by norm_num [withinWindow])

/-! ### Claim C10 — one debounced notification fires after mount -/

end PersianWheel
